import Mathlib

/-!
Verification of the nodeconductor-paypal payment/agreement lifecycle logic.

Shallow embedding of `src/nodeconductor_paypal/models.py`,
`src/nodeconductor_paypal/tasks.py` and `src/nodeconductor_paypal/backend.py`.
Datetimes are modelled as integer Unix seconds; Decimal values as rationals;
Python exceptions as `Except`; the external PayPal SDK as explicit inputs
describing the outcomes of its calls.
-/

namespace PaypalSpec

/-! ## Payment model and its finite state machine (models.py, Payment) -/

/-- The five Payment states declared in `Payment.States`
(INIT = 0, CREATED = 1, APPROVED = 2, CANCELLED = 3, ERRED = 4). -/
inductive PaymentState
  | INIT
  | CREATED
  | APPROVED
  | CANCELLED
  | ERRED
deriving DecidableEq, Repr, Fintype

/-- The error a `django_fsm` transition raises when the current state does not
match the transition's declared source (the spec calls it
`InvalidStateTransition`). -/
inductive FsmError
  | InvalidStateTransition
deriving DecidableEq, Repr

/-- A `@transition(...)` decorator's `source` argument: either an explicit
list of source states or the wildcard `'*'`. -/
inductive TransSource
  | states (l : List PaymentState)
  | any
deriving DecidableEq

/-- Whether the current state matches a transition's declared source. -/
def TransSource.allows : TransSource → PaymentState → Bool
  | .any, _ => true
  | .states l, s => l.contains s

/-- Semantics of a `django_fsm` transition with declared source and target:
from a matching state it moves to the target, otherwise it raises and the
state field is left untouched. -/
def applyTransition (src : TransSource) (tgt : PaymentState) (s : PaymentState) :
    Except FsmError PaymentState :=
  if src.allows s then .ok tgt else .error .InvalidStateTransition

/-- `@transition(field=state, source=States.INIT, target=States.CREATED)` -/
def set_created : PaymentState → Except FsmError PaymentState :=
  applyTransition (.states [.INIT]) .CREATED

/-- `@transition(field=state, source=States.CREATED, target=States.APPROVED)` -/
def set_approved : PaymentState → Except FsmError PaymentState :=
  applyTransition (.states [.CREATED]) .APPROVED

/-- `@transition(field=state, source=States.CREATED, target=States.CANCELLED)` -/
def set_cancelled : PaymentState → Except FsmError PaymentState :=
  applyTransition (.states [.CREATED]) .CANCELLED

/-- `@transition(field=state, source='*', target=States.ERRED)` -/
def set_erred : PaymentState → Except FsmError PaymentState :=
  applyTransition .any .ERRED

/-- The state of the FSM field after invoking a transition: the target on
success, unchanged on a raised `InvalidStateTransition`. -/
def stateAfter (f : PaymentState → Except FsmError PaymentState)
    (s : PaymentState) : PaymentState :=
  match f s with
  | .ok t => t
  | .error _ => s

/-! ## Payment records and the stale-payment cleanup task (tasks.py) -/

/-- The slice of a Payment row that `PaymentsCleanUp` inspects:
its FSM state and its `created` timestamp (Unix seconds). -/
structure PaymentRec where
  state : PaymentState
  created : Int
deriving DecidableEq, Repr

/-- `timedelta(weeks=1)` in seconds: the default `STALE_PAYMENTS_LIFETIME`. -/
def STALE_PAYMENTS_LIFETIME_default : Int := 7 * 86400

/-- `PaymentsCleanUp.run`:
`Payment.objects.filter(state=CREATED, created__lte=now - timespan).delete()`.
Returns the table after deletion. -/
def paymentsCleanUp (now timespan : Int) (db : List PaymentRec) : List PaymentRec :=
  db.filter (fun p => ¬ (p.state = .CREATED ∧ p.created ≤ now - timespan))

/-- The records `PaymentsCleanUp.run` deletes. -/
def paymentsCleanUpDeleted (now timespan : Int) (db : List PaymentRec) : List PaymentRec :=
  db.filter (fun p => p.state = .CREATED ∧ p.created ≤ now - timespan)

/-! ## Invoices and the invoice-dispatch task (models.py Invoice/InvoiceItem,
tasks.py SendInvoices) -/

/-- `InvoiceItem` (models.py): amount and tax are `Decimal`, modelled as
rationals. -/
structure InvoiceItem where
  amount : ℚ
  tax : ℚ
  description : String
  backend_id : String
deriving DecidableEq, Repr

/-- `Invoice` (models.py). The `items` reverse relation is carried inline.
The `backend_id` field is modelled from the spec: `SendInvoices.run`
(tasks.py) filters invoices on `backend_id=''` but the field's declaration
is not part of the sources; the spec states an empty backend identifier
marks an invoice not yet dispatched upstream. -/
structure Invoice where
  start_date : Int
  end_date : Int
  items : List InvoiceItem
  backend_id : String
deriving DecidableEq, Repr

/-- `Invoice.total_amount`: `sum(item.amount for item in self.items)`.
Python's `sum` left-folds `(+)` from `0`. -/
def Invoice.total_amount (inv : Invoice) : ℚ :=
  inv.items.foldl (fun acc it => acc + it.amount) 0

/-- `Invoice.total_tax`: `sum(item.tax for item in self.items)`. -/
def Invoice.total_tax (inv : Invoice) : ℚ :=
  inv.items.foldl (fun acc it => acc + it.tax) 0

/-- The queryset of `SendInvoices.run`:
`models.Invoice.objects.filter(backend_id='')`. -/
def sendInvoicesSelection (db : List Invoice) : List Invoice :=
  db.filter (fun inv => inv.backend_id = "")

/-- `SendInvoices.run`: for each selected invoice, trigger
`executors.InvoiceCreateExecutor.execute(invoice)` (the executor is an
external collaborator, passed as a function). Returns the list of dispatch
results, one per selected invoice. -/
def sendInvoicesRun (executor : Invoice → Invoice) (db : List Invoice) :
    List Invoice :=
  (sendInvoicesSelection db).map executor

/-! ## Query-string parsing (Python 2 `urlparse`/`urllib`, as used by
`PaypalBackend._find_token`) -/

/-- `s.split(c)` on a character list: always returns at least one piece. -/
def splitOnChar (c : Char) : List Char → List (List Char)
  | [] => [[]]
  | a :: rest =>
    if a = c then [] :: splitOnChar c rest
    else
      match splitOnChar c rest with
      | [] => [[a]]
      | h :: t => (a :: h) :: t

/-- The prefix of `l` before the first occurrence of `c` (all of `l` if
absent). -/
def beforeChar (c : Char) : List Char → List Char
  | [] => []
  | a :: rest => if a = c then [] else a :: beforeChar c rest

/-- The suffix of `l` after the first occurrence of `c` (`[]` if absent). -/
def afterChar (c : Char) : List Char → List Char
  | [] => []
  | a :: rest => if a = c then rest else afterChar c rest

/-- The `query` component of `urlparse.urlparse`: the fragment (after the
first `#`) is split off first, then the query is what follows the first `?`
of the remainder; empty when there is no `?`. -/
def urlQueryChars (url : List Char) : List Char :=
  afterChar '?' (beforeChar '#' url)

/-- Split at the first `=`: `name_value.split('=', 1)`, `none` when there is
no `=` (the two-element case). -/
def splitFirstEq : List Char → Option (List Char × List Char)
  | [] => none
  | a :: rest =>
    if a = '=' then some ([], rest)
    else (splitFirstEq rest).map (fun p => (a :: p.1, p.2))

def isHexDigitCh (c : Char) : Bool :=
  (48 ≤ c.toNat ∧ c.toNat ≤ 57) ∨ (97 ≤ c.toNat ∧ c.toNat ≤ 102) ∨
    (65 ≤ c.toNat ∧ c.toNat ≤ 70)

def hexVal (c : Char) : Nat :=
  if c.toNat ≤ 57 then c.toNat - 48
  else if 97 ≤ c.toNat then c.toNat - 87
  else c.toNat - 55

/-- `urllib.unquote`: split on `%`; after each `%`, two hex digits decode to
the byte they denote, anything else keeps the literal `%`. -/
def unquote (l : List Char) : List Char :=
  match splitOnChar '%' l with
  | [] => l
  | first :: parts =>
    first ++ parts.flatMap (fun item =>
      match item with
      | a :: b :: rest =>
        if isHexDigitCh a ∧ isHexDigitCh b then
          Char.ofNat (16 * hexVal a + hexVal b) :: rest
        else '%' :: item
      | _ => '%' :: item)

/-- `s.replace('+', ' ')` applied before unquoting. -/
def plusToSpace (l : List Char) : List Char :=
  l.map (fun c => if c = '+' then ' ' else c)

/-- The name-value chunks of a query string: split on `&`, then each piece
on `;` (`urlparse.parse_qsl`). -/
def pairChunks (q : List Char) : List (List Char) :=
  (splitOnChar '&' q).flatMap (splitOnChar ';')

/-- `urlparse.parse_qsl(qs)` with default options: blank chunks are skipped,
chunks without `=` are skipped, chunks whose raw value is empty are skipped,
and kept names/values get `+`-to-space then percent-unquoting. -/
def parse_qsl (q : List Char) : List (List Char × List Char) :=
  (pairChunks q).filterMap (fun nv =>
    if nv = [] then none
    else
      match splitFirstEq nv with
      | none => none
      | some (n, v) =>
        if v = [] then none
        else some (unquote (plusToSpace n), unquote (plusToSpace v)))

/-- Insert one parsed pair into the dict of `parse_qs`: append the value if
the name is already present, otherwise add a new single-value entry. -/
def qsInsert (d : List (List Char × List (List Char))) (kv : List Char × List Char) :
    List (List Char × List (List Char)) :=
  match d with
  | [] => [(kv.1, [kv.2])]
  | (k, vs) :: rest =>
    if k = kv.1 then (k, vs ++ [kv.2]) :: rest else (k, vs) :: qsInsert rest kv

/-- `urlparse.parse_qs(qs)`: group the `parse_qsl` pairs by name, keeping
each name's values in order of occurrence. -/
def parse_qs (q : List Char) : List (List Char × List (List Char)) :=
  (parse_qsl q).foldl qsInsert []

/-- `dict.get(key)`. -/
def qsGet (d : List (List Char × List (List Char))) (k : List Char) :
    Option (List (List Char)) :=
  match d with
  | [] => none
  | (k', v) :: rest => if k' = k then some v else qsGet rest k

/-! ## Errors and the transport adapter (backend.py) -/

/-- The exceptions that travel through `PaypalBackend`: the module's own
`PayPalError` (the spec's normalized `BackendError`) and the SDK's
`paypal.exceptions.ConnectionError`. -/
inductive Exc
  | payPalError (msg : String)
  | connectionError (msg : String)
deriving DecidableEq, Repr

/-- `PaypalBackend._find_token`: parse the approval URL, `parse_qs` its
query, take `params.get('token')`; a missing or falsy (empty-list) result
raises `PayPalError`, otherwise return `token[0]`. -/
def find_token (approval_url : String) : Except Exc String :=
  let params := parse_qs (urlQueryChars approval_url.data)
  match qsGet params "token".data with
  | none => .error (.payPalError "Unable to parse token from approval_url")
  | some [] => .error (.payPalError "Unable to parse token from approval_url")
  | some (t :: _) => .ok (String.mk t)

/-- The values `parse_qsl` yields for the `token` name, in order of
occurrence in the query string. -/
def tokenVals (approval_url : String) : List (List Char) :=
  (parse_qsl (urlQueryChars approval_url.data)).filterMap
    (fun p => if p.1 = "token".data then some p.2 else none)

instance {e a : Type} [DecidableEq e] [DecidableEq a] : DecidableEq (Except e a) :=
  fun x y =>
    match x, y with
    | .ok u, .ok v =>
      if h : u = v then isTrue (by rw [h])
      else isFalse (by intro hh; cases hh; exact h rfl)
    | .error u, .error v =>
      if h : u = v then isTrue (by rw [h])
      else isFalse (by intro hh; cases hh; exact h rfl)
    | .ok _, .error _ => isFalse (by intro hh; cases hh)
    | .error _, .ok _ => isFalse (by intro hh; cases hh)

/-! ## Date handling (backend.py, get_agreement_transactions) -/

/-- Civil (year, month, day) of a day count since the Unix epoch
(proleptic Gregorian; the standard days-to-civil algorithm, used here to
model what `datetime.strftime` prints for a datetime held as epoch
seconds). -/
def civilFromDays (z0 : Int) : Int × Int × Int :=
  let z := z0 + 719468
  let era : Int := Int.fdiv z 146097
  let doe : Int := z - era * 146097
  let yoe : Int := (doe - doe / 1460 + doe / 36524 - doe / 146096) / 365
  let y : Int := yoe + era * 400
  let doy : Int := doe - (365 * yoe + yoe / 4 - yoe / 100)
  let mp : Int := (5 * doy + 2) / 153
  let d : Int := doy - (153 * mp + 2) / 5 + 1
  let m : Int := mp + (if mp < 10 then 3 else -9)
  (y + (if m ≤ 2 then 1 else 0), m, d)

/-- Zero-pad a natural to `w` digits. -/
def padNat (w : Nat) (n : Nat) : String :=
  let s := toString n
  String.mk (List.replicate (w - s.length) '0') ++ s

/-- `strftime('%Y-%m-%d')` for a datetime held as Unix seconds. -/
def strftimeYMD (sec : Int) : String :=
  let c := civilFromDays (Int.fdiv sec 86400)
  padNat 4 c.1.toNat ++ "-" ++ padNat 2 c.2.1.toNat ++ "-" ++ padNat 2 c.2.2.toNat

/-- One day in seconds (`datetime.timedelta(days=1)`). -/
def oneDay : Int := 86400

/-- The end-date rule of `get_agreement_transactions`: a missing end date
defaults to `timezone.now()`; then, if the span from the start date is less
than one day, the end date is pushed out by one day. -/
def adjustEndDate (now start_date : Int) (end_date : Option Int) : Int :=
  let e := match end_date with
    | none => now
    | some d => d
  if e - start_date < oneDay then e + oneDay else e

/-- The `(formatted_start_date, formatted_end_date)` pair
`get_agreement_transactions` hands to `search_transactions`. -/
def transactionSearchDates (now start_date : Int) (end_date : Option Int) :
    String × String :=
  (strftimeYMD start_date, strftimeYMD (adjustEndDate now start_date end_date))

/-! ## Transactions returned by the processor -/

/-- `tx.amount` of an agreement transaction (only `.value` is read). -/
structure TxAmount where
  value : String
deriving DecidableEq, Repr

/-- An agreement transaction as returned by `search_transactions`. -/
structure Tx where
  status : String
  time_stamp : String
  transaction_id : String
  amount : TxAmount
  payer_email : String
deriving DecidableEq, Repr

/-- The dictionary built for each surfaced transaction; `DT` is the type
`dateutil.parser.parse` produces and `Q` the type of `decimal.Decimal`. -/
structure TxResult (DT Q : Type) where
  time_stamp : DT
  transaction_id : String
  amount : Q
  payer_email : String
deriving DecidableEq, Repr

/-- The result-building loop of `get_agreement_transactions`: transactions
whose status is not `'Completed'` are skipped (`continue`), the rest are
mapped through `dateutil.parser.parse` / `decimal.Decimal` in order. -/
def surfaceTxs {DT Q : Type} (parseTs : String → DT) (parseDec : String → Q) :
    List Tx → List (TxResult DT Q)
  | [] => []
  | tx :: rest =>
    if tx.status ≠ "Completed" then surfaceTxs parseTs parseDec rest
    else ⟨parseTs tx.time_stamp, tx.transaction_id, parseDec tx.amount.value,
          tx.payer_email⟩ :: surfaceTxs parseTs parseDec rest

/-! ## The transport adapter's operations and error policy (backend.py) -/

/-- The `try: ... except paypal.exceptions.ConnectionError as e:
six.reraise(PayPalError, e)` wrapper around every backend operation's body:
a connection error escaping the body is re-raised as `PayPalError`. -/
def reraiseConn {α : Type} : Except Exc α → Except Exc α
  | .error (.connectionError m) => .error (.payPalError m)
  | r => r

/-- One hyperlink of an SDK response (`link.rel`, `link.href`). -/
structure Link where
  rel : String
  href : String
deriving DecidableEq, Repr

/-- `PaypalBackend._find_approval_url`: first link whose `rel` is
`'approval_url'`; raises `PayPalError` when none is. -/
def find_approval_url : List Link → Except Exc String
  | [] => .error (.payPalError "Approval URL is not found")
  | l :: rest => if l.rel = "approval_url" then .ok l.href else find_approval_url rest

/-- The source class `PaypalPayment`: backend payment id, approval URL and
token. -/
structure PaypalPayment where
  payment_id : String
  approval_url : String
  token : String
deriving DecidableEq, Repr

/-- The outcomes of the SDK calls `make_payment` performs:
`payment.create()` (a bool, or a raised `ConnectionError` carried as
`.error`), plus the `links`, `id` and `error` attributes it then reads. -/
structure PaymentCreateWorld where
  createResult : Except String Bool
  links : List Link
  id : String
  error : String

/-- `PaypalBackend.make_payment`, from the `payment.create()` call on: on
`True`, extract approval URL and token and build a `PaypalPayment`; on
`False`, raise `PayPalError(payment.error)`; a `ConnectionError` is
re-raised as `PayPalError`. -/
def make_payment (w : PaymentCreateWorld) : Except Exc PaypalPayment :=
  reraiseConn (
    match w.createResult with
    | .error m => .error (.connectionError m)
    | .ok false => .error (.payPalError w.error)
    | .ok true =>
      match find_approval_url w.links with
      | .error e => .error e
      | .ok approval_url =>
        match find_token approval_url with
        | .error e => .error e
        | .ok token => .ok ⟨w.id, approval_url, token⟩)

/-- What `approve_payment` sees of a found payment object: the outcome of
`payment.execute({'payer_id': ...})` and its `error` attribute. -/
structure PaymentObj where
  executeResult : Except String Bool
  error : String

/-- The outcomes of the SDK calls `approve_payment` performs:
`paypal.Payment.find` returns an empty (falsy) result — modelled `none` —
when the payment does not exist instead of raising. -/
structure PaymentApproveWorld where
  findResult : Except String (Option PaymentObj)

/-- `PaypalBackend.approve_payment`. -/
def approve_payment (w : PaymentApproveWorld) : Except Exc Bool :=
  reraiseConn (
    match w.findResult with
    | .error m => .error (.connectionError m)
    | .ok none => .error (.payPalError "Payment not found")
    | .ok (some p) =>
      match p.executeResult with
      | .error m => .error (.connectionError m)
      | .ok true => .ok true
      | .ok false => .error (.payPalError p.error))

/-- The outcomes of `plan.create()` and `plan.activate()` plus the `id` and
`error` attributes `create_plan` reads. -/
structure PlanWorld where
  createResult : Except String Bool
  activateResult : Except String Bool
  id : String
  error : String

/-- `PaypalBackend.create_plan`: `if plan.create() and plan.activate():
return plan.id`, short-circuiting; either `False` raises
`PayPalError(plan.error)`. -/
def create_plan (w : PlanWorld) : Except Exc String :=
  reraiseConn (
    match w.createResult with
    | .error m => .error (.connectionError m)
    | .ok false => .error (.payPalError w.error)
    | .ok true =>
      match w.activateResult with
      | .error m => .error (.connectionError m)
      | .ok false => .error (.payPalError w.error)
      | .ok true => .ok w.id)

/-- The outcomes of the SDK calls `create_agreement` performs. -/
structure AgreementCreateWorld where
  createResult : Except String Bool
  links : List Link
  error : String

/-- `PaypalBackend.create_agreement`, from the `agreement.create()` call
on: on success returns `(approval_url, token)`. -/
def create_agreement (w : AgreementCreateWorld) : Except Exc (String × String) :=
  reraiseConn (
    match w.createResult with
    | .error m => .error (.connectionError m)
    | .ok false => .error (.payPalError w.error)
    | .ok true =>
      match find_approval_url w.links with
      | .error e => .error e
      | .ok approval_url =>
        match find_token approval_url with
        | .error e => .error e
        | .ok token => .ok (approval_url, token))

/-- `execute_agreement`'s view of the SDK:
`paypal.BillingAgreement.execute(payment_token)` yields an agreement id, an
empty (falsy) result — modelled `none` — or a `ConnectionError`. -/
structure AgreementExecuteWorld where
  executeResult : Except String (Option String)

/-- `PaypalBackend.execute_agreement`. -/
def execute_agreement (w : AgreementExecuteWorld) : Except Exc String :=
  reraiseConn (
    match w.executeResult with
    | .error m => .error (.connectionError m)
    | .ok none => .error (.payPalError "Can not execute agreement")
    | .ok (some id) => .ok id)

/-- A found billing agreement, carrying the outcomes of the calls the
backend may make on it: `agreement.cancel({...})`, its `error` attribute,
and `agreement.search_transactions(fs, fe)` as a function of the two
formatted dates (an empty/falsy transaction list is modelled `none`). -/
structure AgreementObj where
  cancelResult : Except String Bool
  error : String
  searchResult : String → String → Except String (Option (List Tx))

/-- A concrete agreement object (cancel succeeds, transaction search finds
nothing), used to instantiate the adapter theorems. -/
def sampleAgreement : AgreementObj :=
  ⟨.ok true, "", fun _ _ => .ok none⟩

/-- A concrete agreement object whose transaction search returns an empty
transaction list, used to instantiate the adapter theorems. -/
def sampleSearchAgreement : AgreementObj :=
  ⟨.ok true, "", fun _ _ => .ok (some [])⟩

/-- `paypal.BillingAgreement.find(agreement_id)` returns an empty (falsy)
result — modelled `none` — when the agreement does not exist instead of
raising. -/
def get_agreement (findResult : Except String (Option AgreementObj)) :
    Except Exc AgreementObj :=
  reraiseConn (
    match findResult with
    | .error m => .error (.connectionError m)
    | .ok none => .error (.payPalError "Agreement not found")
    | .ok (some a) => .ok a)

/-- `PaypalBackend.cancel_agreement`: fetch the agreement through
`get_agreement` (outside the `try` block), then cancel it. -/
def cancel_agreement (findResult : Except String (Option AgreementObj)) :
    Except Exc Bool :=
  match get_agreement findResult with
  | .error e => .error e
  | .ok agreement =>
    reraiseConn (
      match agreement.cancelResult with
      | .error m => .error (.connectionError m)
      | .ok true => .ok true
      | .ok false => .error (.payPalError agreement.error))

/-- `PaypalBackend.get_agreement_transactions`: adjust and format the
dates, fetch the agreement, search its transactions over the formatted
range, and surface the completed ones. -/
def get_agreement_transactions {DT Q : Type} (parseTs : String → DT)
    (parseDec : String → Q) (now : Int)
    (findResult : Except String (Option AgreementObj))
    (start_date : Int) (end_date : Option Int) :
    Except Exc (List (TxResult DT Q)) :=
  let fs := strftimeYMD start_date
  let fe := strftimeYMD (adjustEndDate now start_date end_date)
  match get_agreement findResult with
  | .error e => .error e
  | .ok agreement =>
    reraiseConn (
      match agreement.searchResult fs fe with
      | .error m => .error (.connectionError m)
      | .ok none => .ok []
      | .ok (some txs) => .ok (surfaceTxs parseTs parseDec txs))

/-! ## Bridge lemmas: `parse_qs` grouping versus occurrence order -/

theorem qsGet_qsInsert (d : List (List Char × List (List Char)))
    (k1 v1 : List Char) (k0 : List Char) :
    qsGet (qsInsert d (k1, v1)) k0 =
      if k1 = k0 then some ((qsGet d k0).getD [] ++ [v1]) else qsGet d k0 := by
  induction d with
  | nil =>
    by_cases h : k1 = k0 <;> simp [qsInsert, qsGet, h]
  | cons hd tl ih =>
    obtain ⟨k, vs⟩ := hd
    by_cases hk : k = k1
    · subst hk
      by_cases hk0 : k = k0
      · subst hk0
        simp [qsInsert, qsGet]
      · simp [qsInsert, qsGet, hk0]
    · by_cases hk0 : k = k0
      · subst hk0
        have h1 : k1 ≠ k := fun h => hk h.symm
        simp [qsInsert, qsGet, hk, h1]
      · simp [qsInsert, qsGet, hk, hk0, ih]

theorem qsGet_foldl (l : List (List Char × List Char)) :
    ∀ (d : List (List Char × List (List Char))) (k : List Char),
      (qsGet (l.foldl qsInsert d) k).getD [] =
        (qsGet d k).getD [] ++
          l.filterMap (fun p => if p.1 = k then some p.2 else none) := by
  induction l with
  | nil => simp
  | cons hd tl ih =>
    obtain ⟨k1, v1⟩ := hd
    intro d k
    simp only [List.foldl_cons, List.filterMap_cons]
    rw [ih, qsGet_qsInsert]
    by_cases h : k1 = k
    · simp [h]
    · simp [h]

theorem qsGet_parse_qs (q : List Char) (k : List Char) :
    (qsGet (parse_qs q) k).getD [] =
      (parse_qsl q).filterMap (fun p => if p.1 = k then some p.2 else none) := by
  have := qsGet_foldl (parse_qsl q) [] k
  simpa [parse_qs, qsGet] using this

/-- `find_token` returns the first value `parse_qsl` associates with
`token`, and the designated error when there is none. -/
theorem find_token_eq_tokenVals (url : String) :
    find_token url =
      match tokenVals url with
      | [] => .error (.payPalError "Unable to parse token from approval_url")
      | t :: _ => .ok (String.mk t) := by
  have hv : tokenVals url =
      (qsGet (parse_qs (urlQueryChars url.data)) "token".data).getD [] :=
    (qsGet_parse_qs _ _).symm
  rw [hv]
  simp only [find_token]
  cases qsGet (parse_qs (urlQueryChars url.data)) "token".data with
  | none => rfl
  | some vs => cases vs <;> rfl

/-! ## Claim theorems -/

/-- C1: invoking any of the Payment transitions (`set_created`,
`set_approved`, `set_cancelled`, `set_erred`) from a state that is not a
declared source of that transition fails with `InvalidStateTransition` and
leaves the state unchanged, and the only permitted transitions are
INIT→CREATED, CREATED→APPROVED, CREATED→CANCELLED, and any state→ERRED. -/
theorem payment_transition_guard :
    (∀ s : PaymentState, s ≠ .INIT →
      set_created s = .error .InvalidStateTransition ∧ stateAfter set_created s = s) ∧
    (∀ s : PaymentState, s ≠ .CREATED →
      set_approved s = .error .InvalidStateTransition ∧ stateAfter set_approved s = s) ∧
    (∀ s : PaymentState, s ≠ .CREATED →
      set_cancelled s = .error .InvalidStateTransition ∧ stateAfter set_cancelled s = s) ∧
    set_created .INIT = .ok .CREATED ∧
    set_approved .CREATED = .ok .APPROVED ∧
    set_cancelled .CREATED = .ok .CANCELLED ∧
    (∀ s : PaymentState, set_erred s = .ok .ERRED) ∧
    (∀ s t : PaymentState, set_created s = .ok t → s = .INIT ∧ t = .CREATED) ∧
    (∀ s t : PaymentState, set_approved s = .ok t → s = .CREATED ∧ t = .APPROVED) ∧
    (∀ s t : PaymentState, set_cancelled s = .ok t → s = .CREATED ∧ t = .CANCELLED) ∧
    (∀ s t : PaymentState, set_erred s = .ok t → t = .ERRED) := by
  refine ⟨?_, ?_, ?_, ?_, ?_, ?_, ?_, ?_, ?_, ?_, ?_⟩ <;> decide

/-- Witness for C1: `set_approved` invoked on an INIT payment fails and the
state stays INIT. -/
theorem payment_transition_guard_witness :
    set_approved .INIT = .error .InvalidStateTransition ∧
      stateAfter set_approved .INIT = .INIT :=
  payment_transition_guard.2.1 .INIT (by decide)

/-- C2: each run of `SendInvoices` selects exactly the invoices whose
backend identifier is empty, dispatches one upstream creation per selected
invoice, and an invoice whose backend identifier became non-empty is never
selected again. -/
theorem send_invoices_selection :
    (∀ (db : List Invoice) (inv : Invoice),
      inv ∈ sendInvoicesSelection db ↔ inv ∈ db ∧ inv.backend_id = "") ∧
    (∀ (executor : Invoice → Invoice) (db : List Invoice),
      (sendInvoicesRun executor db).length = (sendInvoicesSelection db).length) ∧
    (∀ (db : List Invoice) (inv : Invoice),
      inv.backend_id ≠ "" → inv ∉ sendInvoicesSelection db) := by
  refine ⟨?_, ?_, ?_⟩
  · intro db inv
    simp [sendInvoicesSelection, List.mem_filter]
  · intro executor db
    simp [sendInvoicesRun]
  · intro db inv h
    simp [sendInvoicesSelection, List.mem_filter, h]

/-- Witness for C2: a dispatched invoice (non-empty backend identifier) is
not selected even when present in the table. -/
theorem send_invoices_selection_witness :
    (⟨0, 0, [], "INV-1"⟩ : Invoice) ∉
      sendInvoicesSelection [⟨0, 0, [], "INV-1"⟩] :=
  send_invoices_selection.2.2 [⟨0, 0, [], "INV-1"⟩] ⟨0, 0, [], "INV-1"⟩ (by decide)

/-- C3: token extraction parses the approval URL's query string and returns
the `token` parameter's value (`ABC123` in the spec's example); with no
non-empty `token` parameter it fails with
`PayPalError("Unable to parse token from approval_url")`; and the payment
and agreement creation paths both extract the token through the same
`find_token` applied to the found approval URL. -/
theorem token_extraction :
    find_token "https://api.example.com/approve?token=ABC123&foo=bar" = .ok "ABC123" ∧
    (∀ url : String, tokenVals url = [] →
      find_token url = .error (.payPalError "Unable to parse token from approval_url")) ∧
    (∀ (w : PaymentCreateWorld) (w' : AgreementCreateWorld),
      w.createResult = .ok true → w'.createResult = .ok true → w.links = w'.links →
      Except.map PaypalPayment.token (make_payment w) =
        Except.map Prod.snd (create_agreement w')) := by
  refine ⟨by decide, ?_, ?_⟩
  · intro url h
    rw [find_token_eq_tokenVals url, h]
  · intro w w' hc hc' hl
    simp only [make_payment, create_agreement, hc, hc', hl]
    cases hfa : find_approval_url w'.links with
    | error e =>
      cases e <;> simp [reraiseConn, Except.map]
    | ok u =>
      cases hft : find_token u with
      | error e => cases e <;> simp [reraiseConn, Except.map, hft]
      | ok t => simp [reraiseConn, Except.map, hft]

/-- Witness for C3: a URL whose query string has no `token` parameter fails
with the designated error. -/
theorem token_extraction_witness :
    find_token "https://api.example.com/approve?foo=bar" =
      .error (.payPalError "Unable to parse token from approval_url") :=
  token_extraction.2.1 "https://api.example.com/approve?foo=bar" (by decide)

/-- C10: a `token` query parameter whose value is empty is treated as
absent (extraction fails when every `token` occurrence in the query string
has an empty value, as in `?token=`), and with several kept occurrences the
first one's value is returned. -/
theorem token_empty_and_duplicates :
    (∀ url : String,
      (∀ nv ∈ pairChunks (urlQueryChars url.data), ∀ n v : List Char,
        splitFirstEq nv = some (n, v) → unquote (plusToSpace n) = "token".data →
        v = []) →
      find_token url = .error (.payPalError "Unable to parse token from approval_url")) ∧
    (∀ (url : String) (t : List Char) (ts : List (List Char)),
      tokenVals url = t :: ts → find_token url = .ok (String.mk t)) ∧
    find_token "https://h/p?token=" =
      .error (.payPalError "Unable to parse token from approval_url") ∧
    find_token "https://h/p?token=A1&token=B2" = .ok "A1" := by
  refine ⟨?_, ?_, by decide, by decide⟩
  · intro url h
    have hv : tokenVals url = [] := by
      unfold tokenVals parse_qsl
      rw [List.filterMap_filterMap]
      rw [List.filterMap_eq_nil_iff]
      intro nv hnv
      by_cases hz : nv = []
      · simp [hz]
      · simp only [if_neg hz]
        cases hsp : splitFirstEq nv with
        | none => rfl
        | some p =>
          obtain ⟨n, v⟩ := p
          by_cases hvz : v = []
          · simp [hvz]
          · simp only [if_neg hvz, Option.bind_some]
            have hne : unquote (plusToSpace n) ≠ "token".data := fun heq =>
              hvz (h nv hnv n v hsp heq)
            simp [hne]
    rw [find_token_eq_tokenVals url, hv]
  · intro url t ts h
    rw [find_token_eq_tokenVals url, h]

/-- Witness for C10: the URL `?token=&x=1`, whose only `token` occurrence
has an empty value, fails with the token-parse error. -/
theorem token_empty_and_duplicates_witness :
    find_token "https://h/p?token=&x=1" =
      .error (.payPalError "Unable to parse token from approval_url") :=
  token_empty_and_duplicates.1 "https://h/p?token=&x=1" (by
    intro nv hnv n v hsp heq
    have hchunks : pairChunks (urlQueryChars ("https://h/p?token=&x=1").data) =
        ["token=".data, "x=1".data] := rfl
    rw [hchunks] at hnv
    simp only [List.mem_cons, List.not_mem_nil, or_false] at hnv
    rcases hnv with h | h <;> subst h
    · rw [show splitFirstEq "token=".data = some ("token".data, ([] : List Char))
        from rfl] at hsp
      injection hsp with hp
      injection hp with hp1 hp2
      exact hp2.symm
    · rw [show splitFirstEq "x=1".data = some ("x".data, "1".data) from rfl] at hsp
      injection hsp with hp
      injection hp with hp1 hp2
      rw [← hp1] at heq
      exact absurd heq (by decide))

/-- C4: a missing end date for a transaction search defaults to the current
time; a span of less than one day pushes the end date out by exactly one
day (2024-01-01/2024-01-01 becomes 2024-01-01/2024-01-02) while a span of
one day or more passes through (2024-01-01/2024-01-05 unchanged); both
dates are formatted as YYYY-MM-DD. -/
theorem transaction_search_dates :
    (∀ now start e : Int, e - start < oneDay →
      adjustEndDate now start (some e) = e + oneDay) ∧
    (∀ now start e : Int, oneDay ≤ e - start →
      adjustEndDate now start (some e) = e) ∧
    (∀ now start : Int,
      adjustEndDate now start none = adjustEndDate now start (some now)) ∧
    transactionSearchDates 0 1704067200 (some 1704067200) =
      ("2024-01-01", "2024-01-02") ∧
    transactionSearchDates 0 1704067200 (some 1704412800) =
      ("2024-01-01", "2024-01-05") := by
  refine ⟨?_, ?_, ?_, by decide, by decide⟩
  · intro now start e h
    simp [adjustEndDate, h]
  · intro now start e h
    have : ¬ e - start < oneDay := not_lt.mpr h
    simp [adjustEndDate, this]
  · intro now start
    rfl

/-- Witness for C4: the zero-length span 2024-01-01..2024-01-01 (in epoch
seconds) is extended by exactly one day. -/
theorem transaction_search_dates_witness :
    adjustEndDate 0 1704067200 (some 1704067200) = 1704067200 + oneDay :=
  transaction_search_dates.1 0 1704067200 1704067200 (by decide)

/-- C5: the transaction search surfaces exactly the transactions whose
status is `Completed`, in order, each mapped to
`{time_stamp parsed, transaction_id, amount as decimal, payer_email}`;
statuses [Completed, Pending, Completed] yield exactly the two completed
transactions. -/
theorem transaction_filtering :
    (∀ (DT Q : Type) (parseTs : String → DT) (parseDec : String → Q)
        (txs : List Tx),
      surfaceTxs parseTs parseDec txs =
        (txs.filter (fun tx => tx.status = "Completed")).map
          (fun tx => ⟨parseTs tx.time_stamp, tx.transaction_id,
                      parseDec tx.amount.value, tx.payer_email⟩)) ∧
    (∀ (DT Q : Type) (parseTs : String → DT) (parseDec : String → Q)
        (now start : Int) (e : Option Int) (a : AgreementObj) (txs : List Tx),
      a.searchResult (strftimeYMD start)
          (strftimeYMD (adjustEndDate now start e)) = .ok (some txs) →
      get_agreement_transactions parseTs parseDec now (.ok (some a)) start e =
        .ok (surfaceTxs parseTs parseDec txs)) ∧
    surfaceTxs (fun s => s) (fun s => s)
      [⟨"Completed", "2024-01-10T10:00:00Z", "T1", ⟨"10.00"⟩, "a@example.com"⟩,
       ⟨"Pending", "2024-01-11T10:00:00Z", "T2", ⟨"20.00"⟩, "b@example.com"⟩,
       ⟨"Completed", "2024-01-12T10:00:00Z", "T3", ⟨"30.00"⟩, "c@example.com"⟩] =
      [⟨"2024-01-10T10:00:00Z", "T1", "10.00", "a@example.com"⟩,
       ⟨"2024-01-12T10:00:00Z", "T3", "30.00", "c@example.com"⟩] := by
  refine ⟨?_, ?_, by decide⟩
  · intro DT Q parseTs parseDec txs
    induction txs with
    | nil => rfl
    | cons tx rest ih =>
      by_cases h : tx.status = "Completed"
      · simp [surfaceTxs, List.filter_cons, h, ih]
      · simp [surfaceTxs, List.filter_cons, h, ih]
  · intro DT Q parseTs parseDec now start e a txs h
    simp [get_agreement_transactions, get_agreement, reraiseConn, h]

/-- Witness for C5: a search over an agreement whose transaction list comes
back empty surfaces the empty list. -/
theorem transaction_filtering_witness :
    get_agreement_transactions (fun s => s) (fun s => s) 0
        (.ok (some sampleSearchAgreement)) 0 none =
      .ok (surfaceTxs (fun s => s) (fun s => s) []) :=
  transaction_filtering.2.1 String String (fun s => s) (fun s => s)
    0 0 none sampleSearchAgreement [] rfl

/-- C6: the stale-payment cleanup deletes exactly the CREATED payments whose
creation time is at least the staleness window (default 7 days) in the
past: an 8-day-old CREATED payment is deleted, a 6-day-old one is kept,
payments in any other state are never deleted, and a second run is a
no-op. -/
theorem stale_payment_cleanup :
    (∀ (now ts : Int) (db : List PaymentRec) (p : PaymentRec),
      p ∈ paymentsCleanUp now ts db ↔
        p ∈ db ∧ ¬(p.state = .CREATED ∧ p.created ≤ now - ts)) ∧
    (∀ (now ts : Int) (db : List PaymentRec) (p : PaymentRec),
      p ∈ paymentsCleanUpDeleted now ts db ↔
        p ∈ db ∧ p.state = .CREATED ∧ p.created ≤ now - ts) ∧
    (∀ (now : Int) (db : List PaymentRec) (p : PaymentRec),
      p.state = .CREATED → p.created = now - 8 * 86400 →
      p ∉ paymentsCleanUp now STALE_PAYMENTS_LIFETIME_default db) ∧
    (∀ (now : Int) (db : List PaymentRec) (p : PaymentRec),
      p ∈ db → p.created = now - 6 * 86400 →
      p ∈ paymentsCleanUp now STALE_PAYMENTS_LIFETIME_default db) ∧
    (∀ (now ts : Int) (db : List PaymentRec) (p : PaymentRec),
      p ∈ db → p.state ≠ .CREATED → p ∈ paymentsCleanUp now ts db) ∧
    (∀ (now ts : Int) (db : List PaymentRec),
      paymentsCleanUp now ts (paymentsCleanUp now ts db) =
        paymentsCleanUp now ts db) := by
  refine ⟨?_, ?_, ?_, ?_, ?_, ?_⟩
  · intro now ts db p
    simp only [paymentsCleanUp, List.mem_filter, decide_eq_true_eq]
  · intro now ts db p
    simp [paymentsCleanUpDeleted, List.mem_filter]
  · intro now db p h1 h2
    simp only [paymentsCleanUp, STALE_PAYMENTS_LIFETIME_default, List.mem_filter]
    intro hmem
    simp only [decide_eq_true_eq] at hmem
    exact hmem.2 ⟨h1, by omega⟩
  · intro now db p h1 h2
    simp only [paymentsCleanUp, STALE_PAYMENTS_LIFETIME_default, List.mem_filter]
    refine ⟨h1, ?_⟩
    simp only [decide_eq_true_eq]
    intro hc
    omega
  · intro now ts db p h1 h2
    simp only [paymentsCleanUp, List.mem_filter]
    refine ⟨h1, ?_⟩
    simp only [decide_eq_true_eq]
    intro hc
    exact h2 hc.1
  · intro now ts db
    simp only [paymentsCleanUp]
    rw [List.filter_filter]
    apply List.filter_congr
    intro p _
    exact Bool.and_self _

/-- Witness for C6: with the default 7-day window, a CREATED payment made
8 days before `now = 0` is deleted even when present, and a CANCELLED one
of the same age is kept. -/
theorem stale_payment_cleanup_witness :
    (⟨.CREATED, -(8 * 86400)⟩ : PaymentRec) ∉
      paymentsCleanUp 0 STALE_PAYMENTS_LIFETIME_default
        [⟨.CREATED, -(8 * 86400)⟩, ⟨.CANCELLED, -(8 * 86400)⟩] ∧
    (⟨.CANCELLED, -(8 * 86400)⟩ : PaymentRec) ∈
      paymentsCleanUp 0 STALE_PAYMENTS_LIFETIME_default
        [⟨.CREATED, -(8 * 86400)⟩, ⟨.CANCELLED, -(8 * 86400)⟩] :=
  ⟨stale_payment_cleanup.2.2.1 0
      [⟨.CREATED, -(8 * 86400)⟩, ⟨.CANCELLED, -(8 * 86400)⟩]
      ⟨.CREATED, -(8 * 86400)⟩ rfl (by decide),
   stale_payment_cleanup.2.2.2.2.1 0 STALE_PAYMENTS_LIFETIME_default
      [⟨.CREATED, -(8 * 86400)⟩, ⟨.CANCELLED, -(8 * 86400)⟩]
      ⟨.CANCELLED, -(8 * 86400)⟩ (by decide) (by decide)⟩

/-- C7: `get_agreement` turns the processor's empty (falsy) find result into
the not-found `PayPalError` rather than returning it; a successful result
only ever comes from a non-empty find result. -/
theorem agreement_not_found :
    get_agreement (.ok none) = .error (.payPalError "Agreement not found") ∧
    (∀ (r : Except String (Option AgreementObj)) (a : AgreementObj),
      get_agreement r = .ok a → r = .ok (some a)) := by
  refine ⟨rfl, ?_⟩
  intro r a h
  cases r with
  | error m => simp [get_agreement, reraiseConn] at h
  | ok o =>
    cases o with
    | none => simp [get_agreement, reraiseConn] at h
    | some a' =>
      simp only [get_agreement, reraiseConn] at h
      cases h
      rfl

/-- Witness for C7: a found agreement comes back exactly from the non-empty
find result that produced it. -/
theorem agreement_not_found_witness :
    (Except.ok (some sampleAgreement) : Except String (Option AgreementObj)) =
      Except.ok (some sampleAgreement) :=
  agreement_not_found.2 (.ok (some sampleAgreement)) sampleAgreement rfl

/-- A failure escaping `reraiseConn` is always a `payPalError`: the
connection-error branch is converted and no other error kind exists. -/
theorem reraiseConn_only_payPalError {α : Type} (b : Except Exc α) (e : Exc) :
    reraiseConn b = .error e → ∃ m, e = .payPalError m := by
  intro h
  cases b with
  | ok a => simp [reraiseConn] at h
  | error e' =>
    cases e' with
    | payPalError m =>
      simp only [reraiseConn] at h
      cases h
      exact ⟨m, rfl⟩
    | connectionError m =>
      simp only [reraiseConn] at h
      cases h
      exact ⟨m, rfl⟩

/-- C8: every transport-adapter operation that fails fails with the single
normalized `PayPalError` kind (the spec's `BackendError`), whether the
underlying cause was a processor-reported business error or a raised
connection error; no other error kind escapes. -/
theorem backend_error_policy :
    (∀ (w : PaymentCreateWorld) (e : Exc),
      make_payment w = .error e → ∃ m, e = .payPalError m) ∧
    (∀ (w : PaymentApproveWorld) (e : Exc),
      approve_payment w = .error e → ∃ m, e = .payPalError m) ∧
    (∀ (w : PlanWorld) (e : Exc),
      create_plan w = .error e → ∃ m, e = .payPalError m) ∧
    (∀ (w : AgreementCreateWorld) (e : Exc),
      create_agreement w = .error e → ∃ m, e = .payPalError m) ∧
    (∀ (w : AgreementExecuteWorld) (e : Exc),
      execute_agreement w = .error e → ∃ m, e = .payPalError m) ∧
    (∀ (r : Except String (Option AgreementObj)) (e : Exc),
      get_agreement r = .error e → ∃ m, e = .payPalError m) ∧
    (∀ (r : Except String (Option AgreementObj)) (e : Exc),
      cancel_agreement r = .error e → ∃ m, e = .payPalError m) ∧
    (∀ (DT Q : Type) (parseTs : String → DT) (parseDec : String → Q)
        (now : Int) (r : Except String (Option AgreementObj))
        (start : Int) (e? : Option Int) (e : Exc),
      get_agreement_transactions parseTs parseDec now r start e? = .error e →
        ∃ m, e = .payPalError m) := by
  refine ⟨fun w e h => reraiseConn_only_payPalError _ e h,
          fun w e h => reraiseConn_only_payPalError _ e h,
          fun w e h => reraiseConn_only_payPalError _ e h,
          fun w e h => reraiseConn_only_payPalError _ e h,
          fun w e h => reraiseConn_only_payPalError _ e h,
          fun r e h => reraiseConn_only_payPalError _ e h,
          ?_, ?_⟩
  · intro r e h
    simp only [cancel_agreement] at h
    cases hg : get_agreement r with
    | error e' =>
      rw [hg] at h
      cases h
      exact reraiseConn_only_payPalError _ e hg
    | ok a =>
      rw [hg] at h
      exact reraiseConn_only_payPalError _ e h
  · intro DT Q parseTs parseDec now r start e? e h
    simp only [get_agreement_transactions] at h
    cases hg : get_agreement r with
    | error e' =>
      rw [hg] at h
      cases h
      exact reraiseConn_only_payPalError _ e hg
    | ok a =>
      rw [hg] at h
      exact reraiseConn_only_payPalError _ e h

/-- Witness for C8: a connection error raised inside `make_payment` escapes
as the normalized `PayPalError`. -/
theorem backend_error_policy_witness :
    ∃ m, (Exc.payPalError "boom") = .payPalError m :=
  backend_error_policy.1 ⟨.error "boom", [], "", ""⟩ (.payPalError "boom") rfl

/-- List-fold form of Python's `sum` over a projection of invoice items. -/
theorem foldl_add_map_sum (f : InvoiceItem → ℚ) (l : List InvoiceItem) :
    ∀ acc : ℚ, l.foldl (fun a it => a + f it) acc = acc + (l.map f).sum := by
  induction l with
  | nil => intro acc; simp
  | cons it rest ih =>
    intro acc
    simp only [List.foldl_cons, List.map_cons, List.sum_cons]
    rw [ih]
    ring

/-- C9: an invoice's `total_amount` is the sum of its items' amounts and
`total_tax` the sum of their taxes, both computed from the items on access
(they depend on nothing but the items). -/
theorem invoice_totals :
    (∀ inv : Invoice, inv.total_amount = (inv.items.map InvoiceItem.amount).sum) ∧
    (∀ inv : Invoice, inv.total_tax = (inv.items.map InvoiceItem.tax).sum) ∧
    (∀ inv inv' : Invoice, inv.items = inv'.items →
      inv.total_amount = inv'.total_amount ∧ inv.total_tax = inv'.total_tax) := by
  have ha : ∀ inv : Invoice,
      inv.total_amount = (inv.items.map InvoiceItem.amount).sum := by
    intro inv
    rw [Invoice.total_amount, foldl_add_map_sum]
    simp
  have ht : ∀ inv : Invoice,
      inv.total_tax = (inv.items.map InvoiceItem.tax).sum := by
    intro inv
    rw [Invoice.total_tax, foldl_add_map_sum]
    simp
  refine ⟨ha, ht, ?_⟩
  intro inv inv' hitems
  rw [ha, ha, ht, ht, hitems]
  exact ⟨rfl, rfl⟩

/-- Witness for C9: two invoices over the same items (different dates and
backend ids) have the same computed totals. -/
theorem invoice_totals_witness :
    (⟨0, 1, [⟨2, (1 : ℚ) / 5, "vm", ""⟩], ""⟩ : Invoice).total_amount =
        (⟨5, 9, [⟨2, (1 : ℚ) / 5, "vm", ""⟩], "INV-7"⟩ : Invoice).total_amount ∧
      (⟨0, 1, [⟨2, (1 : ℚ) / 5, "vm", ""⟩], ""⟩ : Invoice).total_tax =
        (⟨5, 9, [⟨2, (1 : ℚ) / 5, "vm", ""⟩], "INV-7"⟩ : Invoice).total_tax :=
  invoice_totals.2.2 ⟨0, 1, [⟨2, (1 : ℚ) / 5, "vm", ""⟩], ""⟩
    ⟨5, 9, [⟨2, (1 : ℚ) / 5, "vm", ""⟩], "INV-7"⟩ rfl

end PaypalSpec
